import Mathlib

/-!
Shallow embedding of the Widevine license-exchange core of this repository
(`src/lib.rs`, with the error type of `src/error.rs`).

Modelling conventions:
* Machine bytes (`u8`) are `Nat`s; byte strings (`Vec<u8>`, `&[u8]`) are
  `List Nat`.
* The OpenSSL crypto primitives and the prost (Protocol Buffers) codec are
  external crates; they are modelled as an explicit `Oracle` of functions,
  so every theorem is quantified over their behaviour.  The repository's
  generated protobuf structs are modelled as Lean structures carrying the
  fields the core reads or writes; prost getters (`msg()`, `id()`, ...)
  that substitute the proto2 default for a missing optional field are
  modelled with `Option.getD`.
* Rust panics (`unwrap()` on `None`/`Err`, `assert_eq!` failures,
  out-of-bounds slicing) are modelled by the `Outcome.panic` constructor;
  `Result::Err` returns are `Outcome.err`.  Stateful methods on `Session`
  return the new session next to the outcome; a panic or error outcome is
  paired with the session as it was when the panic fired (unwinding
  performs no further writes).
* Randomness (`rand::thread_rng`) and the wall clock (`current_time`) are
  explicit parameters (`Entropy`, `now`).
-/

namespace RustWidevine

/-- Byte strings of the source (`Vec<u8>` / `&[u8]`); each element is a
`u8` value. -/
abbrev Bytes := List Nat

/-- `WIDEVINE_SYSTEM_ID` constant from `lib.rs`. -/
def WIDEVINE_SYSTEM_ID : Bytes :=
  [0xed, 0xef, 0x8b, 0xa9, 0x79, 0xd6, 0x4a, 0xce,
   0xa3, 0xc8, 0x27, 0xdc, 0xd5, 0x1d, 0x21, 0xed]

/-- `WIDEVINE_ROOT_PUBLIC_KEY` constant from `lib.rs` (398-byte PKCS#1 DER
RSA public key). -/
def WIDEVINE_ROOT_PUBLIC_KEY : Bytes :=
  [0x30, 0x82, 0x01, 0x8a, 0x02, 0x82, 0x01, 0x81, 0x00, 0xb4, 0xfe, 0x39, 0xc3, 0x65, 0x90, 0x03,
   0xdb, 0x3c, 0x11, 0x97, 0x09, 0xe8, 0x68, 0xcd, 0xf2, 0xc3, 0x5e, 0x9b, 0xf2, 0xe7, 0x4d, 0x23,
   0xb1, 0x10, 0xdb, 0x87, 0x65, 0xdf, 0xdc, 0xfb, 0x9f, 0x35, 0xa0, 0x57, 0x03, 0x53, 0x4c, 0xf6,
   0x6d, 0x35, 0x7d, 0xa6, 0x78, 0xdb, 0xb3, 0x36, 0xd2, 0x3f, 0x9c, 0x40, 0xa9, 0x95, 0x26, 0x72,
   0x7f, 0xb8, 0xbe, 0x66, 0xdf, 0xc5, 0x21, 0x98, 0x78, 0x15, 0x16, 0x68, 0x5d, 0x2f, 0x46, 0x0e,
   0x43, 0xcb, 0x8a, 0x84, 0x39, 0xab, 0xfb, 0xb0, 0x35, 0x80, 0x22, 0xbe, 0x34, 0x23, 0x8b, 0xab,
   0x53, 0x5b, 0x72, 0xec, 0x4b, 0xb5, 0x48, 0x69, 0x53, 0x3e, 0x47, 0x5f, 0xfd, 0x09, 0xfd, 0xa7,
   0x76, 0x13, 0x8f, 0x0f, 0x92, 0xd6, 0x4c, 0xdf, 0xae, 0x76, 0xa9, 0xba, 0xd9, 0x22, 0x10, 0xa9,
   0x9d, 0x71, 0x45, 0xd6, 0xd7, 0xe1, 0x19, 0x25, 0x85, 0x9c, 0x53, 0x9a, 0x97, 0xeb, 0x84, 0xd7,
   0xcc, 0xa8, 0x88, 0x82, 0x20, 0x70, 0x26, 0x20, 0xfd, 0x7e, 0x40, 0x50, 0x27, 0xe2, 0x25, 0x93,
   0x6f, 0xbc, 0x3e, 0x72, 0xa0, 0xfa, 0xc1, 0xbd, 0x29, 0xb4, 0x4d, 0x82, 0x5c, 0xc1, 0xb4, 0xcb,
   0x9c, 0x72, 0x7e, 0xb0, 0xe9, 0x8a, 0x17, 0x3e, 0x19, 0x63, 0xfc, 0xfd, 0x82, 0x48, 0x2b, 0xb7,
   0xb2, 0x33, 0xb9, 0x7d, 0xec, 0x4b, 0xba, 0x89, 0x1f, 0x27, 0xb8, 0x9b, 0x88, 0x48, 0x84, 0xaa,
   0x18, 0x92, 0x0e, 0x65, 0xf5, 0xc8, 0x6c, 0x11, 0xff, 0x6b, 0x36, 0xe4, 0x74, 0x34, 0xca, 0x8c,
   0x33, 0xb1, 0xf9, 0xb8, 0x8e, 0xb4, 0xe6, 0x12, 0xe0, 0x02, 0x98, 0x79, 0x52, 0x5e, 0x45, 0x33,
   0xff, 0x11, 0xdc, 0xeb, 0xc3, 0x53, 0xba, 0x7c, 0x60, 0x1a, 0x11, 0x3d, 0x00, 0xfb, 0xd2, 0xb7,
   0xaa, 0x30, 0xfa, 0x4f, 0x5e, 0x48, 0x77, 0x5b, 0x17, 0xdc, 0x75, 0xef, 0x6f, 0xd2, 0x19, 0x6d,
   0xdc, 0xbe, 0x7f, 0xb0, 0x78, 0x8f, 0xdc, 0x82, 0x60, 0x4c, 0xbf, 0xe4, 0x29, 0x06, 0x5e, 0x69,
   0x8c, 0x39, 0x13, 0xad, 0x14, 0x25, 0xed, 0x19, 0xb2, 0xf2, 0x9f, 0x01, 0x82, 0x0d, 0x56, 0x44,
   0x88, 0xc8, 0x35, 0xec, 0x1f, 0x11, 0xb3, 0x24, 0xe0, 0x59, 0x0d, 0x37, 0xe4, 0x47, 0x3c, 0xea,
   0x4b, 0x7f, 0x97, 0x31, 0x1c, 0x81, 0x7c, 0x94, 0x8a, 0x4c, 0x7d, 0x68, 0x15, 0x84, 0xff, 0xa5,
   0x08, 0xfd, 0x18, 0xe7, 0xe7, 0x2b, 0xe4, 0x47, 0x27, 0x12, 0x11, 0xb8, 0x23, 0xec, 0x58, 0x93,
   0x3c, 0xac, 0x12, 0xd2, 0x88, 0x6d, 0x41, 0x3d, 0xc5, 0xfe, 0x1c, 0xdc, 0xb9, 0xf8, 0xd4, 0x51,
   0x3e, 0x07, 0xe5, 0x03, 0x6f, 0xa7, 0x12, 0xe8, 0x12, 0xf7, 0xb5, 0xce, 0xa6, 0x96, 0x55, 0x3f,
   0x78, 0xb4, 0x64, 0x82, 0x50, 0xd2, 0x33, 0x5f, 0x91, 0x02, 0x03, 0x01, 0x00, 0x01]

/-- The error type of `src/error.rs` (payloads beyond the message are
dropped where the core never constructs or inspects them).  Note that the
enum has no `State` and no `Crypto` variant. -/
inductive Error where
  | Internal (message : String)
  | OpenSSL (message : String)
  | Input (message : String)
  | Request (message : String)
  | Decode (message : String)
  | Block (message : String)
  deriving DecidableEq

/-- Result of running a piece of Rust code: a normal value, a returned
`Err`, or a panic (from `unwrap`, `assert_eq!`, or out-of-bounds slicing). -/
inductive Outcome (α : Type) where
  | ok (value : α)
  | err (e : Error)
  | panic (message : String)
  deriving DecidableEq

def Outcome.isOk {α : Type} : Outcome α → Bool
  | .ok _ => true
  | _ => false

def Outcome.isErr {α : Type} : Outcome α → Bool
  | .err _ => true
  | _ => false

def Outcome.isPanic {α : Type} : Outcome α → Bool
  | .panic _ => true
  | _ => false

/-- `ClientIdentification` protobuf message.  The core never inspects its
fields (it only decodes, re-encodes and embeds it), so it is carried as an
abstract token. -/
structure ClientIdentification where
  tag : Nat
  deriving DecidableEq

/-- `WidevinePsshData` protobuf message (the fields the core writes). -/
structure WidevinePsshData where
  pssh_data : List Bytes
  license_type : Option Nat
  request_id : Option Bytes
  deriving DecidableEq

/-- `ContentIdentification`; the core only ever uses the
`WidevinePsshData` variant of `content_id_variant`. -/
structure ContentIdentification where
  content_id_variant : Option WidevinePsshData
  deriving DecidableEq

/-- `EncryptedClientIdentification` protobuf message. -/
structure EncryptedClientIdentification where
  provider_id : Option String
  service_certificate_serial_number : Option Bytes
  encrypted_client_id : Option Bytes
  encrypted_privacy_key : Option Bytes
  encrypted_client_id_iv : Option Bytes
  deriving DecidableEq

/-- `SignedDrmCertificate` protobuf message. -/
structure SignedDrmCertificate where
  drm_certificate : Option Bytes
  signature : Option Bytes
  deriving DecidableEq

/-- `DrmCertificate` protobuf message (fields the core reads). -/
structure DrmCertificate where
  serial_number : Option Bytes
  public_key : Option Bytes
  provider_id : Option String
  deriving DecidableEq

/-- `LicenseRequest` protobuf message (fields the core writes).  The
numeric codes follow the spec (section 6): request type NEW = 1, protocol
version VERSION_2_1 = 21, license type STREAMING = 1. -/
structure LicenseRequest where
  client_id : Option ClientIdentification
  encrypted_client_id : Option EncryptedClientIdentification
  content_id : Option ContentIdentification
  type : Option Nat
  request_time : Option Int
  protocol_version : Option Nat
  key_control_nonce : Option Nat
  deriving DecidableEq

/-- `SignedMessage` protobuf envelope.  Message type code
LICENSE_REQUEST = 1 per the spec (section 4.1). -/
structure SignedMessage where
  type : Option Nat
  msg : Option Bytes
  signature : Option Bytes
  session_key : Option Bytes
  deriving DecidableEq

/-- Modelled from the spec: the key-type enum of the Widevine
`license_protocol.proto` schema.  The schema itself is compiled by
`build.rs` from `src/license_protocol.proto`, which is not among the
repository sources; the spec (sections 4.5 and 9) names the values
SIGNING, CONTENT, KEY_CONTROL, OPERATOR_SESSION, ENTITLEMENT and states
that the generated accessor emits the canonical upper-snake-case names. -/
inductive KeyType where
  | SIGNING
  | CONTENT
  | KEY_CONTROL
  | OPERATOR_SESSION
  | ENTITLEMENT
  deriving DecidableEq

/-- Modelled from the spec: prost's `as_str_name` for the key-type enum
returns the upper-snake-case schema name. -/
def KeyType.as_str_name : KeyType → String
  | .SIGNING => "SIGNING"
  | .CONTENT => "CONTENT"
  | .KEY_CONTROL => "KEY_CONTROL"
  | .OPERATOR_SESSION => "OPERATOR_SESSION"
  | .ENTITLEMENT => "ENTITLEMENT"

/-- A key container inside a decoded `License` message.  The proto2
default for the optional `type` field is the first enum value, SIGNING. -/
structure LicenseKeyContainer where
  id : Option Bytes
  iv : Option Bytes
  key : Option Bytes
  type : Option KeyType
  deriving DecidableEq

/-- `License` protobuf message (the core only reads the repeated `key`
field). -/
structure License where
  key : List LicenseKeyContainer
  deriving DecidableEq

/-- Output record `KeyContainer` of `lib.rs`. -/
structure KeyContainer where
  kid : String
  key : String
  deriving DecidableEq

/-- The `Session` struct of `lib.rs` (field names as in the source,
including the `raw_lincese_request` misspelling). -/
structure Session where
  session_id : Bytes
  signed_service_certificate : Option SignedDrmCertificate
  raw_lincese_request : Option Bytes
  deriving DecidableEq

/-- The `LicenseDecryptionModule`: the device RSA private key is carried
as the two operations the core applies to it (`private_decrypt` with OAEP
padding, which can fail, and RSA-PSS/SHA-1 salt-20 signing) together with
its size in bytes (`Rsa::size`). -/
structure LicenseDecryptionModule where
  privateDecrypt : Bytes → Except Unit Bytes
  privateKeySize : Nat
  sign : Bytes → Bytes
  identification_blob : Bytes

/-- External-crate behaviour: the prost codec for each message type the
core decodes or encodes, and the OpenSSL crypto primitives.  Fallible
OpenSSL calls return `Except Unit`. -/
structure Oracle where
  decodeClientIdentification : Bytes → Option ClientIdentification
  encodeClientIdentification : ClientIdentification → Bytes
  decodeSignedDrmCertificate : Bytes → Option SignedDrmCertificate
  decodeDrmCertificate : Bytes → Option DrmCertificate
  decodeSignedMessage : Bytes → Option SignedMessage
  decodeWidevinePsshData : Bytes → Option Unit
  decodeLicense : Bytes → Option License
  encodeLicenseRequest : LicenseRequest → Bytes
  encodeSignedMessage : SignedMessage → Bytes
  rsaPssVerify : Bytes → Bytes → Bytes → Except Unit Bool
  rsaOaepEncrypt : Bytes → Bytes → Except Unit Bytes
  aesCbcEncrypt : Bytes → Bytes → Bytes → Except Unit Bytes
  aesCbcDecrypt : Bytes → Bytes → Bytes → Except Unit Bytes
  cmacAes128 : Bytes → Bytes → Bytes
  hmacSha256 : Bytes → Bytes → Bytes

/-- Randomness drawn inside `create_license_request`: the `u32`
key-control nonce and, for the privacy path, the 16-byte AES key and IV. -/
structure Entropy where
  key_control_nonce : Nat
  privacy_key : Bytes
  privacy_iv : Bytes

/-- Hex digit characters as produced by `hex::encode` (lowercase). -/
def hexDigit (n : Nat) : Char :=
  if n < 10 then Char.ofNat (48 + n) else Char.ofNat (87 + n)

/-- `hex::encode`: two lowercase hex digits per byte, in order. -/
def hexEncode (bytes : Bytes) : String :=
  String.mk (bytes.foldr
    (fun b acc => hexDigit (b % 256 / 16) :: hexDigit (b % 256 % 16) :: acc) [])

/-- The bytes of the literal `b"ENCRYPTION\x00"` (`lib.rs` line 256). -/
def encryptionTag : Bytes :=
  [0x45, 0x4e, 0x43, 0x52, 0x59, 0x50, 0x54, 0x49, 0x4f, 0x4e, 0x00]

/-- The bytes of the literal `b"AUTHENTICATION\x00"` (`lib.rs` line 262). -/
def authenticationTag : Bytes :=
  [0x41, 0x55, 0x54, 0x48, 0x45, 0x4e, 0x54, 0x49, 0x43, 0x41, 0x54, 0x49,
   0x4f, 0x4e, 0x00]

def panicSliceOutOfBounds : String := "range end index out of bounds"

def panicAssertSystemId : String := "assertion failed: pssh[12..28] == WIDEVINE_SYSTEM_ID"

def panicCheckPsshSlice : String := "range start index out of bounds in check_pssh"

def panicUnwrapClientId : String := "unwrap on Err: ClientIdentification decode"

def panicUnwrapTryFrom : String := "unwrap on Err: i64 try_from"

def panicUnwrapDrmCertificate : String := "unwrap on Err: DrmCertificate decode"

def panicUnwrapCbcEncrypt : String := "unwrap on Err: AES-CBC encrypt"

def panicUnwrapOaepEncrypt : String := "unwrap on Err: RSA public encrypt"

def panicUnwrapSignedDrmCertificate : String := "unwrap on Err: SignedDrmCertificate decode"

def panicUnwrapVerify : String := "unwrap on Err: service certificate verify"

def panicUnwrapSignedMessage : String := "unwrap on Err: SignedMessage decode"

def panicUnwrapPrivateDecrypt : String := "unwrap on Err: RSA private decrypt"

def panicUnwrapRawRequest : String := "unwrap on None: raw_lincese_request"

def panicAssertSignature : String :=
  "assertion failed: calculated_signature == signed_message.signature()"

def panicUnwrapLicense : String := "unwrap on Err: License decode"

def panicUnwrapCbcDecrypt : String := "unwrap on Err: AES-CBC decrypt"

def todoVerifyMessage : String :=
  "TODO: Could not verify signature of service certificate"

/-- `generate_session_token` (`lib.rs` lines 376-385): the 4 random bytes
drawn from `thread_rng` are the parameter; then 4 zero bytes, then
`1u64.to_le_bytes()`. -/
def generate_session_token (random_bytes : Bytes) : Bytes :=
  random_bytes ++ [0x00, 0x00, 0x00, 0x00] ++ [0x01, 0, 0, 0, 0, 0, 0, 0]

/-- `Session::new` (`lib.rs` lines 147-153). -/
def Session.new (random_bytes : Bytes) : Session :=
  { session_id := generate_session_token random_bytes
    signed_service_certificate := none
    raw_lincese_request := none }

/-- `verify_service_certificate` (`lib.rs` lines 357-367): RSA-PSS verify
of the certificate's `signature` over its `drm_certificate` bytes under
the hard-coded root key; any OpenSSL-level failure (including parsing the
root key) is the `Except.error` case. -/
def verify_service_certificate (O : Oracle)
    (signed_service_certificate : SignedDrmCertificate) : Except Unit Bool :=
  O.rsaPssVerify WIDEVINE_ROOT_PUBLIC_KEY
    (signed_service_certificate.drm_certificate.getD [])
    (signed_service_certificate.signature.getD [])

/-- `Session::set_service_certificate` (`lib.rs` lines 160-175).  The
decode and the verify call are both followed by `.unwrap()` in the
source, hence panic on failure; a `false` verify result returns the
`Internal` error with the literal TODO message; only the success path
stores the certificate. -/
def set_service_certificate (O : Oracle) (s : Session)
    (raw_service_certificate : Bytes) : Outcome Unit × Session :=
  match O.decodeSignedDrmCertificate raw_service_certificate with
  | none => (.panic panicUnwrapSignedDrmCertificate, s)
  | some signed_service_certificate =>
    match verify_service_certificate O signed_service_certificate with
    | .error _ => (.panic panicUnwrapVerify, s)
    | .ok verified =>
      if verified then
        (.ok (), { s with signed_service_certificate := some signed_service_certificate })
      else
        (.err (.Internal todoVerifyMessage), s)

/-- `check_pssh` (`lib.rs` lines 387-392): slices `pssh[32..]` (panic when
the box is shorter) and reports whether `WidevinePsshData` decodes.  The
boolean is computed but the caller discards it. -/
def check_pssh (O : Oracle) (pssh : Bytes) : Outcome Bool :=
  if pssh.length < 32 then .panic panicCheckPsshSlice
  else
    match O.decodeWidevinePsshData (pssh.drop 32) with
    | some _ => .ok true
    | none => .ok false

/-- `encrypte_client_identification` (`lib.rs` lines 321-355), with the
random AES key and IV taken from `Entropy`.  Every fallible step is
`.unwrap()`ed in the source. -/
def encrypte_client_identification (O : Oracle) (E : Entropy)
    (client_identification : ClientIdentification)
    (signed_service_certificate : SignedDrmCertificate) :
    Outcome EncryptedClientIdentification :=
  match O.decodeDrmCertificate (signed_service_certificate.drm_certificate.getD []) with
  | none => .panic panicUnwrapDrmCertificate
  | some service_certificate =>
    match O.aesCbcEncrypt E.privacy_key E.privacy_iv
        (O.encodeClientIdentification client_identification) with
    | .error _ => .panic panicUnwrapCbcEncrypt
    | .ok encrypted_client_id =>
      match O.rsaOaepEncrypt (service_certificate.public_key.getD []) E.privacy_key with
      | .error _ => .panic panicUnwrapOaepEncrypt
      | .ok encrypted_key =>
        .ok { provider_id := some (service_certificate.provider_id.getD (String.mk []))
              service_certificate_serial_number :=
                some (service_certificate.serial_number.getD [])
              encrypted_client_id := some encrypted_client_id
              encrypted_privacy_key := some encrypted_key
              encrypted_client_id_iv := some E.privacy_iv }

/-- The `LicenseRequest` value constructed by `create_license_request`
(`lib.rs` lines 188-215), in source order: the system-id assertion
(out-of-bounds slicing of `pssh[12..28]` and assertion failure both
panic), the `check_pssh` call whose boolean result is discarded, the
client-identification decode, the message assembly, and the
certificate-dependent choice between `encrypted_client_id` and
`client_id`. -/
def build_license_request (O : Oracle) (E : Entropy) (now : Nat)
    (ldm : LicenseDecryptionModule) (s : Session) (pssh : Bytes) :
    Outcome LicenseRequest :=
  if pssh.length < 28 then .panic panicSliceOutOfBounds
  else if (pssh.drop 12).take 16 ≠ WIDEVINE_SYSTEM_ID then .panic panicAssertSystemId
  else
    match check_pssh O pssh with
    | .panic m => .panic m
    | _ =>
      match O.decodeClientIdentification ldm.identification_blob with
      | none => .panic panicUnwrapClientId
      | some client_identification =>
        let widevine_pssh_data : WidevinePsshData :=
          { pssh_data := [pssh.drop 32]
            license_type := some 1
            request_id := some s.session_id }
        let content : ContentIdentification :=
          { content_id_variant := some widevine_pssh_data }
        if 2 ^ 63 ≤ now then .panic panicUnwrapTryFrom
        else
          let license_request : LicenseRequest :=
            { client_id := none
              encrypted_client_id := none
              content_id := some content
              type := some 1
              request_time := some (Int.ofNat now)
              protocol_version := some 21
              key_control_nonce := some (E.key_control_nonce % 2 ^ 32) }
          match s.signed_service_certificate with
          | some signed_service_certificate =>
            match encrypte_client_identification O E client_identification
                signed_service_certificate with
            | .panic m => .panic m
            | .err e => .err e
            | .ok eci => .ok { license_request with encrypted_client_id := some eci }
          | none => .ok { license_request with client_id := some client_identification }

/-- `Session::create_license_request` (`lib.rs` lines 183-236): build the
request, serialize it, cache the serialized bytes in
`raw_lincese_request`, sign exactly those bytes, and wrap them (with the
signature) in a `SignedMessage` of type LICENSE_REQUEST. -/
def create_license_request (O : Oracle) (E : Entropy) (now : Nat)
    (ldm : LicenseDecryptionModule) (s : Session) (pssh : Bytes) :
    Outcome Bytes × Session :=
  match build_license_request O E now ldm s pssh with
  | .panic m => (.panic m, s)
  | .err e => (.err e, s)
  | .ok license_request =>
    let raw_license_request : Bytes := O.encodeLicenseRequest license_request
    let s2 : Session := { s with raw_lincese_request := some raw_license_request }
    let signature : Bytes := ldm.sign raw_license_request
    let signed_license_request : SignedMessage :=
      { type := some 1
        msg := some raw_license_request
        signature := some signature
        session_key := none }
    (.ok (O.encodeSignedMessage signed_license_request), s2)

/-- The per-container loop of `parse_license` (`lib.rs` lines 298-316):
containers are processed in the server's order; the kid is the hex of a
non-empty `id` and otherwise the enum name of `type`; the key bytes are
AES-CBC-decrypted under the derived encryption key with the container's
IV (panic when OpenSSL reports a decrypt error, e.g. bad padding). -/
def parseKeys (O : Oracle) (encryption_key : Bytes) :
    List LicenseKeyContainer → Outcome (List KeyContainer)
  | [] => .ok []
  | key_container :: rest =>
    let key_id : String :=
      if 0 < (key_container.id.getD []).length then hexEncode (key_container.id.getD [])
      else (key_container.type.getD .SIGNING).as_str_name
    match O.aesCbcDecrypt encryption_key (key_container.iv.getD [])
        (key_container.key.getD []) with
    | .error _ => .panic panicUnwrapCbcDecrypt
    | .ok decrypted_key =>
      match parseKeys O encryption_key rest with
      | .ok tail => .ok ({ kid := key_id, key := hexEncode decrypted_key } :: tail)
      | .err e => .err e
      | .panic m => .panic m

/-- `Session::parse_license` (`lib.rs` lines 238-318).  The decode, the
OAEP decrypt and the cached-request access are `.unwrap()`ed; the decrypt
writes the plaintext into a zero buffer of `private_key.size()` bytes and
the first 16 bytes of that buffer become the CMAC key; the two KDF bases
are built from the cached request bytes; the HMAC check is an
`assert_eq!`. -/
def parse_license (O : Oracle) (ldm : LicenseDecryptionModule)
    (s : Session) (license : Bytes) : Outcome (List KeyContainer) :=
  match O.decodeSignedMessage license with
  | none => .panic panicUnwrapSignedMessage
  | some signed_message =>
    match ldm.privateDecrypt (signed_message.session_key.getD []) with
    | .error _ => .panic panicUnwrapPrivateDecrypt
    | .ok plain =>
      let decrypted_session_key : Bytes :=
        plain ++ List.replicate (ldm.privateKeySize - plain.length) 0
      match s.raw_lincese_request with
      | none => .panic panicUnwrapRawRequest
      | some raw_license_request =>
        let encryption_key_base : Bytes :=
          encryptionTag ++ raw_license_request ++ [0x00, 0x00, 0x00, 0x80]
        let authentication_key_base : Bytes :=
          authenticationTag ++ raw_license_request ++ [0x00, 0x00, 0x02, 0x00]
        let cmac_key : Bytes := decrypted_session_key.take 16
        let encryption_key : Bytes := O.cmacAes128 cmac_key ([0x01] ++ encryption_key_base)
        let part_1 : Bytes := O.cmacAes128 cmac_key ([0x01] ++ authentication_key_base)
        let part_2 : Bytes := O.cmacAes128 cmac_key ([0x02] ++ authentication_key_base)
        let server_key : Bytes := part_1 ++ part_2
        let calculated_signature : Bytes :=
          O.hmacSha256 server_key (signed_message.msg.getD [])
        if calculated_signature = signed_message.signature.getD [] then
          match O.decodeLicense (signed_message.msg.getD []) with
          | none => .panic panicUnwrapLicense
          | some license_message => parseKeys O encryption_key license_message.key
        else .panic panicAssertSignature

/-- Spec formula (section 4.5 step 2): the session key SK is the first 16
bytes of the RSA-OAEP decryption of the response's `session_key`. -/
def specSessionKey (decrypted : Bytes) : Bytes := decrypted.take 16

/-- Spec formula (section 4.5 step 3):
Kenc = CMAC_SK(0x01 then the literal ENCRYPTION NUL, then LR, then the
trailer 00 00 00 80). -/
def specKenc (O : Oracle) (sk lr : Bytes) : Bytes :=
  O.cmacAes128 sk (0x01 :: (encryptionTag ++ lr ++ [0x00, 0x00, 0x00, 0x80]))

/-- Spec formula (section 4.5 step 3): Kmac is the concatenation of the
two CMACs with counter bytes 0x01 and 0x02 over the literal
AUTHENTICATION NUL, then LR, then the trailer 00 00 02 00. -/
def specKmac (O : Oracle) (sk lr : Bytes) : Bytes :=
  O.cmacAes128 sk (0x01 :: (authenticationTag ++ lr ++ [0x00, 0x00, 0x02, 0x00])) ++
    O.cmacAes128 sk (0x02 :: (authenticationTag ++ lr ++ [0x00, 0x00, 0x02, 0x00]))

/-- The `request_id` embedded in a `LicenseRequest` through its content
identification, when present. -/
def requestIdOf (lr : LicenseRequest) : Option Bytes :=
  match lr.content_id with
  | none => none
  | some c =>
    match c.content_id_variant with
    | none => none
    | some w => w.request_id

/-- The spec's error message for a license whose HMAC check fails. -/
def licenseSignatureInvalidMessage : String := "license signature invalid"

/-- The spec's error message for a service certificate whose RSA-PSS
verification returns false. -/
def signatureInvalidMessage : String := "signature invalid"

/-! Concrete fixtures used by witnesses and counterexamples. -/

def cCert : SignedDrmCertificate := { drm_certificate := some [1], signature := some [2] }

def cCertErr : SignedDrmCertificate := { drm_certificate := some [9], signature := some [2] }

def cDrmCert : DrmCertificate :=
  { serial_number := some [1], public_key := some [2], provider_id := none }

def cSM : SignedMessage :=
  { type := some 2, msg := some [3], signature := some [5], session_key := some [4] }

def cKc1 : LicenseKeyContainer :=
  { id := some [171], iv := some [1], key := some [2], type := none }

def cKc2 : LicenseKeyContainer :=
  { id := some [], iv := none, key := none, type := some .CONTENT }

def cLicense : License := { key := [cKc1, cKc2] }

def cLdm : LicenseDecryptionModule :=
  { privateDecrypt := fun _ => .ok (List.replicate 16 7)
    privateKeySize := 256
    sign := fun _ => [4]
    identification_blob := [1] }

def cEntropy : Entropy :=
  { key_control_nonce := 5
    privacy_key := List.replicate 16 1
    privacy_iv := List.replicate 16 2 }

def cPssh : Bytes := List.replicate 12 0 ++ WIDEVINE_SYSTEM_ID ++ [0, 0, 0, 0]

def cPsshBad : Bytes := List.replicate 32 0

def cSessionFresh : Session := Session.new [1, 2, 3, 4]

def cSessionPinned : Session :=
  { cSessionFresh with signed_service_certificate := some cCert }

def cSessionAfter : Session :=
  { cSessionFresh with raw_lincese_request := some [9] }

def cSessionOther : Session :=
  { session_id := [], signed_service_certificate := some cCert,
    raw_lincese_request := some [9] }

def oracleA : Oracle :=
  { decodeClientIdentification := fun _ => some ⟨0⟩
    encodeClientIdentification := fun _ => [2]
    decodeSignedDrmCertificate := fun _ => some cCert
    decodeDrmCertificate := fun _ => some cDrmCert
    decodeSignedMessage := fun _ => some cSM
    decodeWidevinePsshData := fun _ => some ()
    decodeLicense := fun _ => some cLicense
    encodeLicenseRequest := fun _ => [9]
    encodeSignedMessage := fun _ => [7]
    rsaPssVerify := fun _ _ _ => .ok true
    rsaOaepEncrypt := fun _ _ => .ok [6]
    aesCbcEncrypt := fun _ _ _ => .ok [6]
    aesCbcDecrypt := fun _ _ _ => .ok [6]
    cmacAes128 := fun _ _ => [8]
    hmacSha256 := fun _ _ => [5] }

def oracleB : Oracle :=
  { oracleA with
    decodeWidevinePsshData := fun _ => none
    decodeSignedDrmCertificate := fun raw =>
      if raw = [0] then none else if raw = [2] then some cCertErr else some cCert
    rsaPssVerify := fun _ data _ => if data = [9] then .error () else .ok false
    hmacSha256 := fun _ _ => [0] }

def cWidevinePsshData : WidevinePsshData :=
  { pssh_data := [cPssh.drop 32]
    license_type := some 1
    request_id := some cSessionFresh.session_id }

def cContent : ContentIdentification := { content_id_variant := some cWidevinePsshData }

/-- The `LicenseRequest` produced on the no-certificate path for the
concrete fixtures. -/
def cLrPlain : LicenseRequest :=
  { client_id := some ⟨0⟩
    encrypted_client_id := none
    content_id := some cContent
    type := some 1
    request_time := some 0
    protocol_version := some 21
    key_control_nonce := some 5 }

def cEci : EncryptedClientIdentification :=
  { provider_id := some (String.mk [])
    service_certificate_serial_number := some [1]
    encrypted_client_id := some [6]
    encrypted_privacy_key := some [6]
    encrypted_client_id_iv := some cEntropy.privacy_iv }

/-- The `LicenseRequest` produced on the pinned-certificate path for the
concrete fixtures. -/
def cLrEnc : LicenseRequest :=
  { cLrPlain with client_id := none, encrypted_client_id := some cEci }

/-! Theorems for the claims. -/

/-- C9 (counterexample): on a fresh session (no `create_license_request`
has run, so `raw_lincese_request` is `none`) and a decodable response,
`parse_license` panics; it does not return an error value of any kind, so
in particular not a `State` error — indeed the error type of
`src/error.rs` has no `State` variant at all. -/
theorem C9_counterexample :
    cSessionFresh.raw_lincese_request = none ∧
    (parse_license oracleA cLdm cSessionFresh [1]).isPanic = true ∧
    (parse_license oracleA cLdm cSessionFresh [1]).isErr = false := by
  decide

/-- C9 (amended): calling `parse_license` on a session in which
`create_license_request` has not previously succeeded (no cached
`raw_lincese_request`) aborts with a panic — the `unwrap()` on the `None`
cache (or an earlier `unwrap()` in the same call) — rather than returning
a `State` error. -/
theorem C9_amended_parse_panics (O : Oracle) (ldm : LicenseDecryptionModule)
    (s : Session) (lic : Bytes) (h : s.raw_lincese_request = none) :
    (parse_license O ldm s lic).isPanic = true := by
  rcases hsm : O.decodeSignedMessage lic with _ | sm
  · simp [parse_license, hsm, Outcome.isPanic]
  · rcases hpd : ldm.privateDecrypt (sm.session_key.getD []) with _ | plain
    · simp [parse_license, hsm, hpd, Outcome.isPanic]
    · simp [parse_license, hsm, hpd, h, Outcome.isPanic]

/-- C9 (witness): the amended theorem applied to the concrete fresh
session. -/
theorem C9_amended_parse_panics_witness :
    (parse_license oracleA cLdm cSessionFresh [1]).isPanic = true :=
  C9_amended_parse_panics oracleA cLdm cSessionFresh [1] rfl

/-- C10: whenever `set_service_certificate` returns an `Err`, the session
is returned exactly as it was — in particular the pinned certificate (or
its absence) is unchanged. -/
theorem C10_failed_pin_frame (O : Oracle) (s : Session) (raw : Bytes)
    (e : Error) (s2 : Session)
    (h : set_service_certificate O s raw = (.err e, s2)) : s2 = s := by
  simp only [set_service_certificate] at h
  repeat' split at h
  all_goals simp_all

/-- C10 (witness): an invalid-signature pin attempt on the concrete
fixtures returns an error and the theorem yields the frame equality. -/
theorem C10_failed_pin_frame_witness :
    set_service_certificate oracleB cSessionFresh [1] =
        (.err (.Internal todoVerifyMessage), cSessionFresh) ∧
    cSessionFresh = cSessionFresh :=
  ⟨by decide,
   C10_failed_pin_frame oracleB cSessionFresh [1] (.Internal todoVerifyMessage)
     cSessionFresh (by decide)⟩

/-- C4 (counterexample): on a certificate whose RSA-PSS verification
returns false, `set_service_certificate` returns
`Internal("TODO: Could not verify signature of service certificate")`,
not `Input("signature invalid")` as the claim states (and on undecodable
bytes it panics instead of returning `Input`). -/
theorem C4_counterexample :
    set_service_certificate oracleB cSessionFresh [1] =
        (.err (.Internal todoVerifyMessage), cSessionFresh) ∧
    Error.Internal todoVerifyMessage ≠ Error.Input signatureInvalidMessage ∧
    (set_service_certificate oracleB cSessionFresh [0]).1.isPanic = true := by
  decide

/-- C4 (amended): `set_service_certificate` panics when the supplied bytes
do not decode as a `SignedDrmCertificate` and when the underlying verify
call errors, and returns the `Internal` error with the literal TODO
message when verification returns false; on every one of these failure
paths the session (hence the pinned certificate) is unchanged, so an
invalid certificate is never silently accepted. -/
theorem C4_amended_certificate_rejection (O : Oracle) (s : Session)
    (raw : Bytes) (cert : SignedDrmCertificate) :
    (O.decodeSignedDrmCertificate raw = none →
      set_service_certificate O s raw = (.panic panicUnwrapSignedDrmCertificate, s)) ∧
    (O.decodeSignedDrmCertificate raw = some cert →
      verify_service_certificate O cert = .error () →
      set_service_certificate O s raw = (.panic panicUnwrapVerify, s)) ∧
    (O.decodeSignedDrmCertificate raw = some cert →
      verify_service_certificate O cert = .ok false →
      set_service_certificate O s raw = (.err (.Internal todoVerifyMessage), s)) := by
  refine ⟨fun h1 => ?_, fun h1 h2 => ?_, fun h1 h2 => ?_⟩
  · simp [set_service_certificate, h1]
  · simp [set_service_certificate, h1, h2]
  · simp [set_service_certificate, h1, h2]

/-- C4 (witness): the three rejection paths of the amended theorem at
concrete inputs. -/
theorem C4_amended_certificate_rejection_witness :
    set_service_certificate oracleB cSessionFresh [0] =
        (.panic panicUnwrapSignedDrmCertificate, cSessionFresh) ∧
    set_service_certificate oracleB cSessionFresh [2] =
        (.panic panicUnwrapVerify, cSessionFresh) ∧
    set_service_certificate oracleB cSessionFresh [1] =
        (.err (.Internal todoVerifyMessage), cSessionFresh) :=
  ⟨(C4_amended_certificate_rejection oracleB cSessionFresh [0] cCert).1 rfl,
   (C4_amended_certificate_rejection oracleB cSessionFresh [2] cCertErr).2.1 rfl rfl,
   (C4_amended_certificate_rejection oracleB cSessionFresh [1] cCert).2.2 rfl rfl⟩

/-- C3 (counterexample): a PSSH whose bytes [12..28) are all zero makes
`create_license_request` panic (the `assert_eq!` on the system id), so it
does not return the `Input` error the claim states. -/
theorem C3_counterexample :
    (cPsshBad.drop 12).take 16 ≠ WIDEVINE_SYSTEM_ID ∧
    (create_license_request oracleA cEntropy 0 cLdm cSessionFresh cPsshBad).1.isPanic = true ∧
    (create_license_request oracleA cEntropy 0 cLdm cSessionFresh cPsshBad).1.isErr = false := by
  decide

/-- C3 (amended): a pssh whose bytes [12..28) differ from the Widevine
system id (including one too short to have such bytes) makes
`create_license_request` panic, with the session state unchanged; and a
pssh that passes the system-id check but whose bytes [32..) do NOT decode
as `WidevinePsshData` is not rejected at all — `check_pssh`'s boolean is
discarded and the request is produced successfully. -/
theorem C3_amended_pssh_gate (O : Oracle) (E : Entropy) (now : Nat)
    (ldm : LicenseDecryptionModule) (s : Session) (pssh : Bytes)
    (ci : ClientIdentification) :
    ((pssh.drop 12).take 16 ≠ WIDEVINE_SYSTEM_ID →
      (create_license_request O E now ldm s pssh).1.isPanic = true ∧
      (create_license_request O E now ldm s pssh).2 = s) ∧
    ((pssh.drop 12).take 16 = WIDEVINE_SYSTEM_ID → 32 ≤ pssh.length →
      O.decodeWidevinePsshData (pssh.drop 32) = none →
      O.decodeClientIdentification ldm.identification_blob = some ci →
      now < 2 ^ 63 → s.signed_service_certificate = none →
      (create_license_request O E now ldm s pssh).1.isOk = true) := by
  constructor
  · intro hmis
    by_cases h28 : pssh.length < 28 <;>
      simp [create_license_request, build_license_request, h28, hmis, Outcome.isPanic]
  · intro hid h32 hdecode hci hnow hcert
    have h28 : ¬ pssh.length < 28 := by omega
    have h32n : ¬ pssh.length < 32 := by omega
    have hnow2 : ¬ 9223372036854775808 ≤ now := by omega
    simp [create_license_request, build_license_request, check_pssh, h28, hid, h32n,
      hdecode, hci, hnow2, hcert, Outcome.isOk]

/-- C3 (witness): both parts of the amended theorem at concrete inputs:
the all-zero system id panics with no state change, and a good system id
with an undecodable tail still yields a request. -/
theorem C3_amended_pssh_gate_witness :
    ((create_license_request oracleB cEntropy 0 cLdm cSessionFresh cPsshBad).1.isPanic = true ∧
      (create_license_request oracleB cEntropy 0 cLdm cSessionFresh cPsshBad).2 = cSessionFresh) ∧
    (create_license_request oracleB cEntropy 0 cLdm cSessionFresh cPssh).1.isOk = true :=
  ⟨(C3_amended_pssh_gate oracleB cEntropy 0 cLdm cSessionFresh cPsshBad ⟨0⟩).1 (by decide),
   (C3_amended_pssh_gate oracleB cEntropy 0 cLdm cSessionFresh cPssh ⟨0⟩).2
     (by decide) (by decide) rfl rfl (by decide) rfl⟩

/-- C8: a newly constructed session's id is 16 bytes: the 4 supplied
random bytes, then 4 zero bytes, then the little-endian `u64` value 1
(so bytes [4..16) are 00 00 00 00 01 00 00 00 00 00 00 00), and any
successfully built license request embeds exactly this id as
`WidevinePsshData.request_id`. -/
theorem C8_session_id_shape (r : Bytes) (hr : r.length = 4) :
    (Session.new r).session_id.length = 16 ∧
    (Session.new r).session_id.drop 4 = [0, 0, 0, 0, 1, 0, 0, 0, 0, 0, 0, 0] ∧
    ∀ (O : Oracle) (E : Entropy) (now : Nat) (ldm : LicenseDecryptionModule)
      (pssh : Bytes) (lr : LicenseRequest),
      build_license_request O E now ldm (Session.new r) pssh = .ok lr →
      requestIdOf lr = some (Session.new r).session_id := by
  refine ⟨?_, ?_, ?_⟩
  · simp [Session.new, generate_session_token, hr]
  · simp [Session.new, generate_session_token, List.drop_append_eq_append_drop, hr]
  · intro O E now ldm pssh lr hbuild
    simp only [build_license_request, Session.new] at hbuild ⊢
    repeat' split at hbuild
    all_goals cases hbuild
    all_goals simp [requestIdOf]

/-- C8 (witness): the theorem applied to the concrete 4 random bytes and
the concrete successful request build. -/
theorem C8_session_id_shape_witness :
    (Session.new [1, 2, 3, 4]).session_id.length = 16 ∧
    (Session.new [1, 2, 3, 4]).session_id.drop 4 = [0, 0, 0, 0, 1, 0, 0, 0, 0, 0, 0, 0] ∧
    requestIdOf cLrPlain = some (Session.new [1, 2, 3, 4]).session_id :=
  ⟨(C8_session_id_shape [1, 2, 3, 4] rfl).1,
   (C8_session_id_shape [1, 2, 3, 4] rfl).2.1,
   (C8_session_id_shape [1, 2, 3, 4] rfl).2.2 oracleA cEntropy 0 cLdm cPssh cLrPlain
     (by decide)⟩

/-- C5: a successfully built `LicenseRequest` carries exactly one of
`client_id` / `encrypted_client_id`: the encrypted one iff a service
certificate is pinned on the session, the plain one otherwise. -/
theorem C5_exactly_one_identification (O : Oracle) (E : Entropy) (now : Nat)
    (ldm : LicenseDecryptionModule) (s : Session) (pssh : Bytes)
    (lr : LicenseRequest)
    (hbuild : build_license_request O E now ldm s pssh = .ok lr) :
    (s.signed_service_certificate.isSome = true →
      lr.encrypted_client_id.isSome = true ∧ lr.client_id = none) ∧
    (s.signed_service_certificate = none →
      lr.client_id.isSome = true ∧ lr.encrypted_client_id = none) := by
  simp only [build_license_request] at hbuild
  repeat' split at hbuild
  all_goals cases hbuild
  all_goals simp_all

/-- C5 (witness): both branches at concrete inputs — no pin yields
`client_id`, a pinned certificate yields `encrypted_client_id`. -/
theorem C5_exactly_one_identification_witness :
    (cSessionFresh.signed_service_certificate = none ∧
      cLrPlain.client_id.isSome = true ∧ cLrPlain.encrypted_client_id = none) ∧
    (cSessionPinned.signed_service_certificate.isSome = true ∧
      cLrEnc.encrypted_client_id.isSome = true ∧ cLrEnc.client_id = none) :=
  ⟨⟨rfl, (C5_exactly_one_identification oracleA cEntropy 0 cLdm cSessionFresh cPssh
      cLrPlain (by decide)).2 rfl⟩,
   ⟨rfl, (C5_exactly_one_identification oracleA cEntropy 0 cLdm cSessionPinned cPssh
      cLrEnc (by decide)).1 rfl⟩⟩

/-- C6: after a successful `create_license_request`, the cached
`raw_lincese_request` is exactly the serialized `LicenseRequest`, those
same bytes were signed and placed as `msg` in the returned
`SignedMessage`, and `parse_license` depends on the session only through
that cache (so it consumes exactly those bytes, never a
re-serialization). -/
theorem C6_cached_request_bytes (O : Oracle) (E : Entropy) (now : Nat)
    (ldm : LicenseDecryptionModule) (s s2 : Session) (pssh out : Bytes)
    (lr : LicenseRequest)
    (hbuild : build_license_request O E now ldm s pssh = .ok lr)
    (hcreate : create_license_request O E now ldm s pssh = (.ok out, s2)) :
    s2.raw_lincese_request = some (O.encodeLicenseRequest lr) ∧
    out = O.encodeSignedMessage
      { type := some 1
        msg := some (O.encodeLicenseRequest lr)
        signature := some (ldm.sign (O.encodeLicenseRequest lr))
        session_key := none } ∧
    ∀ t : Session, t.raw_lincese_request = s2.raw_lincese_request →
      ∀ lic : Bytes, parse_license O ldm t lic = parse_license O ldm s2 lic := by
  simp only [create_license_request, hbuild, Prod.mk.injEq, Outcome.ok.injEq] at hcreate
  obtain ⟨h1, h2⟩ := hcreate
  subst h2
  refine ⟨rfl, h1.symm, ?_⟩
  intro t ht lic
  simp only [parse_license, ht]

/-- C6 (witness): the cache/signing identity at concrete inputs, and a
session that agrees with the post-request session only on the cache
parses identically. -/
theorem C6_cached_request_bytes_witness :
    cSessionAfter.raw_lincese_request = some (oracleA.encodeLicenseRequest cLrPlain) ∧
    ([7] : Bytes) = oracleA.encodeSignedMessage
      { type := some 1
        msg := some (oracleA.encodeLicenseRequest cLrPlain)
        signature := some (cLdm.sign (oracleA.encodeLicenseRequest cLrPlain))
        session_key := none } ∧
    parse_license oracleA cLdm cSessionOther [1] = parse_license oracleA cLdm cSessionAfter [1] :=
  ⟨(C6_cached_request_bytes oracleA cEntropy 0 cLdm cSessionFresh cSessionAfter cPssh
      [7] cLrPlain (by decide) (by decide)).1,
   (C6_cached_request_bytes oracleA cEntropy 0 cLdm cSessionFresh cSessionAfter cPssh
      [7] cLrPlain (by decide) (by decide)).2.1,
   (C6_cached_request_bytes oracleA cEntropy 0 cLdm cSessionFresh cSessionAfter cPssh
      [7] cLrPlain (by decide) (by decide)).2.2 cSessionOther (by decide) [1]⟩

/-- C2 (counterexample): a response whose HMAC-SHA-256 under the derived
Kmac differs from its `signature` field makes `parse_license` panic via
`assert_eq!`; it does not return `Input("license signature invalid")`,
nor any error value. -/
theorem C2_counterexample :
    oracleB.hmacSha256 (specKmac oracleB (List.replicate 16 7) [9]) (cSM.msg.getD [])
        ≠ cSM.signature.getD [] ∧
    parse_license oracleB cLdm cSessionAfter [1] ≠ .err (.Input licenseSignatureInvalidMessage) ∧
    (parse_license oracleB cLdm cSessionAfter [1]).isErr = false ∧
    (parse_license oracleB cLdm cSessionAfter [1]).isPanic = true := by
  decide

/-- C2 (amended): whenever the HMAC-SHA-256 under the derived Kmac over
the `SignedMessage`'s `msg` differs from its `signature` field,
`parse_license` panics with the signature assertion (rather than
returning an `Input` error); in particular no key containers are ever
returned for such a response. -/
theorem C2_amended_mismatch_panics (O : Oracle) (ldm : LicenseDecryptionModule)
    (s : Session) (lic lr plain : Bytes) (sm : SignedMessage)
    (hsm : O.decodeSignedMessage lic = some sm)
    (hpd : ldm.privateDecrypt (sm.session_key.getD []) = .ok plain)
    (hlr : s.raw_lincese_request = some lr)
    (hmis : O.hmacSha256
        (specKmac O ((plain ++ List.replicate (ldm.privateKeySize - plain.length) 0).take 16) lr)
        (sm.msg.getD []) ≠ sm.signature.getD []) :
    parse_license O ldm s lic = .panic panicAssertSignature := by
  simp only [specKmac] at hmis
  simp only [parse_license, hsm, hpd, hlr, List.singleton_append]
  rw [if_neg hmis]

/-- C2 (witness): the amended theorem at the concrete mismatching
fixtures. -/
theorem C2_amended_mismatch_panics_witness :
    oracleB.hmacSha256
        (specKmac oracleB
          ((List.replicate 16 7 ++
            List.replicate (cLdm.privateKeySize - (List.replicate 16 7 : Bytes).length) 0).take 16)
          [9])
        (cSM.msg.getD []) ≠ cSM.signature.getD [] ∧
    parse_license oracleB cLdm cSessionAfter [1] = .panic panicAssertSignature :=
  ⟨by decide,
   C2_amended_mismatch_panics oracleB cLdm cSessionAfter [1] [9] (List.replicate 16 7)
     cSM rfl rfl rfl (by decide)⟩

/-- C1: for a session in which `create_license_request` has succeeded
(caching `LR`) and any response, `parse_license` computes with exactly
the spec's keys: the session key is the first 16 bytes of the RSA-OAEP
decryption of the response's `session_key`, the encryption key is
CMAC_SK(0x01, ENCRYPTION NUL, LR, 00 00 00 80) and the 32-byte MAC key is
CMAC_SK(0x01, AUTHENTICATION NUL, LR, 00 00 02 00) followed by
CMAC_SK(0x02, AUTHENTICATION NUL, LR, 00 00 02 00). -/
theorem C1_session_and_derived_keys (O : Oracle) (E : Entropy) (now : Nat)
    (ldm : LicenseDecryptionModule) (s s2 : Session)
    (pssh out lic lr plain : Bytes) (sm : SignedMessage)
    (hcreate : create_license_request O E now ldm s pssh = (.ok out, s2))
    (hlr : s2.raw_lincese_request = some lr)
    (hsm : O.decodeSignedMessage lic = some sm)
    (hpd : ldm.privateDecrypt (sm.session_key.getD []) = .ok plain)
    (hlen : 16 ≤ plain.length) :
    parse_license O ldm s2 lic =
      if O.hmacSha256 (specKmac O (specSessionKey plain) lr) (sm.msg.getD []) =
          sm.signature.getD [] then
        match O.decodeLicense (sm.msg.getD []) with
        | none => .panic panicUnwrapLicense
        | some license_message =>
          parseKeys O (specKenc O (specSessionKey plain) lr) license_message.key
      else .panic panicAssertSignature := by
  simp only [parse_license, hsm, hpd, hlr, specKmac, specKenc, specSessionKey,
    List.take_append_of_le_length hlen, List.singleton_append]

/-- C1 (witness): the theorem at the concrete fixtures, with the
hypotheses evaluated. -/
theorem C1_session_and_derived_keys_witness :
    create_license_request oracleA cEntropy 0 cLdm cSessionFresh cPssh =
        (.ok [7], cSessionAfter) ∧
    cSessionAfter.raw_lincese_request = some [9] ∧
    oracleA.decodeSignedMessage [1] = some cSM ∧
    cLdm.privateDecrypt (cSM.session_key.getD []) = .ok (List.replicate 16 7) ∧
    16 ≤ (List.replicate 16 7 : Bytes).length ∧
    parse_license oracleA cLdm cSessionAfter [1] =
      (if oracleA.hmacSha256 (specKmac oracleA (specSessionKey (List.replicate 16 7)) [9])
          (cSM.msg.getD []) = cSM.signature.getD [] then
        match oracleA.decodeLicense (cSM.msg.getD []) with
        | none => .panic panicUnwrapLicense
        | some license_message =>
          parseKeys oracleA (specKenc oracleA (specSessionKey (List.replicate 16 7)) [9])
            license_message.key
      else .panic panicAssertSignature) :=
  ⟨by decide, rfl, rfl, rfl, by decide,
   C1_session_and_derived_keys oracleA cEntropy 0 cLdm cSessionFresh cSessionAfter
     cPssh [7] [1] [9] (List.replicate 16 7) cSM (by decide) rfl rfl rfl (by decide)⟩

/-- The per-container loop with all AES-CBC decrypts succeeding returns
the containers mapped in order: hex id (or the enum name for an empty
id) next to the hex of the decrypted key bytes. -/
theorem parseKeys_map (O : Oracle) (kenc : Bytes) (dec : LicenseKeyContainer → Bytes) :
    ∀ keys : List LicenseKeyContainer,
      (∀ kc ∈ keys, O.aesCbcDecrypt kenc (kc.iv.getD []) (kc.key.getD []) = .ok (dec kc)) →
      parseKeys O kenc keys = .ok (keys.map fun kc =>
        { kid := if kc.id.getD [] = [] then (kc.type.getD .SIGNING).as_str_name
                 else hexEncode (kc.id.getD [])
          key := hexEncode (dec kc) })
  | [], _ => rfl
  | kc :: rest, h => by
    have hkc := h kc (List.mem_cons_self kc rest)
    have ih := parseKeys_map O kenc dec rest fun x hx => h x (List.mem_cons_of_mem kc hx)
    simp only [parseKeys, hkc, ih, List.map_cons]
    by_cases hid : kc.id.getD [] = []
    · simp [hid]
    · have hpos : 0 < (kc.id.getD []).length := List.length_pos.2 hid
      simp [hid, hpos]

/-- C7: a successfully parsed license yields, in the server's order, one
output container per `KeyContainer` of the decoded `License`, whose kid
is the hex of the container's `id` when non-empty and the upper-snake
enum name of its `type` otherwise, and whose key is the hex of the
AES-128-CBC decryption of the container's key bytes under the derived
encryption key with the container's IV. -/
theorem C7_key_container_output (O : Oracle) (ldm : LicenseDecryptionModule)
    (s : Session) (lic lr plain : Bytes) (sm : SignedMessage) (licm : License)
    (dec : LicenseKeyContainer → Bytes)
    (hsm : O.decodeSignedMessage lic = some sm)
    (hpd : ldm.privateDecrypt (sm.session_key.getD []) = .ok plain)
    (hlr : s.raw_lincese_request = some lr)
    (hsig : O.hmacSha256
        (specKmac O ((plain ++ List.replicate (ldm.privateKeySize - plain.length) 0).take 16) lr)
        (sm.msg.getD []) = sm.signature.getD [])
    (hlic : O.decodeLicense (sm.msg.getD []) = some licm)
    (hkeys : ∀ kc ∈ licm.key,
      O.aesCbcDecrypt
        (specKenc O ((plain ++ List.replicate (ldm.privateKeySize - plain.length) 0).take 16) lr)
        (kc.iv.getD []) (kc.key.getD []) = .ok (dec kc)) :
    parse_license O ldm s lic = .ok (licm.key.map fun kc =>
      { kid := if kc.id.getD [] = [] then (kc.type.getD .SIGNING).as_str_name
               else hexEncode (kc.id.getD [])
        key := hexEncode (dec kc) }) := by
  simp only [specKenc] at hkeys
  simp only [specKmac] at hsig
  have hmap := parseKeys_map O _ dec licm.key hkeys
  simp only [parse_license, hsm, hpd, hlr, hlic, List.singleton_append]
  rw [if_pos hsig]
  exact hmap

/-- C7 (witness): the theorem at the concrete fixtures — a two-container
license, one container with a non-empty id and one falling back to the
enum name, in order. -/
theorem C7_key_container_output_witness :
    parse_license oracleA cLdm cSessionAfter [1] =
      .ok (cLicense.key.map fun kc =>
        { kid := if kc.id.getD [] = [] then (kc.type.getD .SIGNING).as_str_name
                 else hexEncode (kc.id.getD [])
          key := hexEncode ((fun _ => ([6] : Bytes)) kc) }) :=
  C7_key_container_output oracleA cLdm cSessionAfter [1] [9] (List.replicate 16 7)
    cSM cLicense (fun _ => [6]) rfl rfl rfl (by decide) rfl
    (by
      intro kc hk
      simp only [cLicense, List.mem_cons, List.not_mem_nil, or_false] at hk
      rcases hk with rfl | rfl <;> rfl)

end RustWidevine
